import Mathlib

/-!
Shallow embedding of the portfolio-generation workflow of this repository:
the generation API route (the POST handler of `src/unnamed/part_000`) and
the dashboard row-mapping of `src/PGFpy/app/dashboard/page.tsx`.

JavaScript values flowing through the route are JSON values (the request
body is `request.json()`, the model response is parsed with `JSON.parse`),
so the value universe is the inductive `JsonVal`.  JavaScript-specific
semantics (truthiness, nullish coalescing, logical or, property access,
`String.prototype.indexOf` / `lastIndexOf` / `substring`) are modelled
explicitly.  The external collaborators (the model call, the two database
inserts, `Date.now()`, the environment credential) are an `Oracle` record
of outcomes; the handler's observable writes are collected in an `Effects`
record.
-/
/-- A JSON value.  Numbers keep their source lexeme: none of the verified
properties depends on numeric semantics, and keeping the lexeme avoids
modelling floating point. -/
inductive JsonVal where
  | null
  | bool (b : Bool)
  | num (lexeme : String)
  | str (s : String)
  | arr (elems : List JsonVal)
  | obj (fields : List (String × JsonVal))
deriving Inhabited

/-- The left-brace character, written via its code so that no brace appears
in a literal. -/
def lbrace : Char := '\x7b'

/-- The right-brace character. -/
def rbrace : Char := '\x7d'

/-- JSON whitespace characters (space, tab, line feed, carriage return). -/
def isJsonWs (c : Char) : Bool :=
  c = ' ' || c = '\t' || c = '\n' || c = '\r'

/-- Drop leading JSON whitespace. -/
def skipWs : List Char → List Char
  | [] => []
  | c :: rest => if isJsonWs c then skipWs rest else c :: rest

/-- Value of a hexadecimal digit. -/
def hexDigitVal (c : Char) : Option Nat :=
  if '0' ≤ c ∧ c ≤ '9' then some (c.toNat - '0'.toNat)
  else if 'a' ≤ c ∧ c ≤ 'f' then some (c.toNat - 'a'.toNat + 10)
  else if 'A' ≤ c ∧ c ≤ 'F' then some (c.toNat - 'A'.toNat + 10)
  else none

/-- Simple escape characters of JSON strings. -/
def escChar (c : Char) : Option Char :=
  if c = '"' then some '"'
  else if c = '\\' then some '\\'
  else if c = '/' then some '/'
  else if c = 'b' then some '\x08'
  else if c = 'f' then some '\x0c'
  else if c = 'n' then some '\n'
  else if c = 'r' then some '\r'
  else if c = 't' then some '\t'
  else none

/-- Parse the body of a JSON string after the opening quote; returns the
decoded characters and the remainder after the closing quote. -/
def parseStrChars : List Char → Option (List Char × List Char)
  | [] => none
  | c :: rest =>
    if c = '"' then some ([], rest)
    else if c = '\\' then
      match rest with
      | 'u' :: h1 :: h2 :: h3 :: h4 :: rest4 =>
        match hexDigitVal h1, hexDigitVal h2, hexDigitVal h3, hexDigitVal h4 with
        | some a, some b, some c2, some d =>
          (parseStrChars rest4).map
            (fun p => (Char.ofNat (((a * 16 + b) * 16 + c2) * 16 + d) :: p.1, p.2))
        | _, _, _, _ => none
      | e :: rest2 =>
        match escChar e with
        | some c2 => (parseStrChars rest2).map (fun p => (c2 :: p.1, p.2))
        | none => none
      | [] => none
    else if c.toNat < 32 then none
    else (parseStrChars rest).map (fun p => (c :: p.1, p.2))

/-- Optional fractional part of a JSON number. -/
def parseFrac (l : List Char) : Option (List Char × List Char) :=
  match l with
  | '.' :: r =>
    let ds := r.takeWhile Char.isDigit
    if ds.isEmpty then none else some ('.' :: ds, r.dropWhile Char.isDigit)
  | _ => some ([], l)

/-- Optional exponent part of a JSON number. -/
def parseExp (l : List Char) : Option (List Char × List Char) :=
  match l with
  | c :: r =>
    if c = 'e' ∨ c = 'E' then
      let sr : List Char × List Char :=
        match r with
        | s :: r2 => if s = '+' ∨ s = '-' then ([s], r2) else ([], s :: r2)
        | [] => ([], [])
      let ds := sr.2.takeWhile Char.isDigit
      if ds.isEmpty then none
      else some (c :: (sr.1 ++ ds), sr.2.dropWhile Char.isDigit)
    else some ([], c :: r)
  | [] => some ([], [])

/-- Parse a JSON number, returning its lexeme. -/
def parseNum (l : List Char) : Option (JsonVal × List Char) :=
  let sl : List Char × List Char :=
    match l with
    | '-' :: r => (['-'], r)
    | _ => ([], l)
  match sl.2 with
  | c :: r =>
    if c.isDigit then
      let ip : List Char × List Char :=
        if c = '0' then ([c], r)
        else (c :: r.takeWhile Char.isDigit, r.dropWhile Char.isDigit)
      match parseFrac ip.2 with
      | none => none
      | some fp =>
        match parseExp fp.2 with
        | none => none
        | some ep =>
          some (.num (String.mk (sl.1 ++ ip.1 ++ fp.1 ++ ep.1)), ep.2)
    else none
  | [] => none

mutual

/-- Parse a JSON value (fuelled recursive descent). -/
def parseVal : Nat → List Char → Option (JsonVal × List Char)
  | 0, _ => none
  | Nat.succ fuel, s =>
    match skipWs s with
    | 'n' :: 'u' :: 'l' :: 'l' :: rest => some (.null, rest)
    | 't' :: 'r' :: 'u' :: 'e' :: rest => some (.bool true, rest)
    | 'f' :: 'a' :: 'l' :: 's' :: 'e' :: rest => some (.bool false, rest)
    | '"' :: rest =>
      (parseStrChars rest).map (fun p => (.str (String.mk p.1), p.2))
    | c :: rest =>
      if c = lbrace then
        match skipWs rest with
        | c2 :: rest2 =>
          if c2 = rbrace then some (.obj [], rest2)
          else
            (parseFields fuel (c2 :: rest2)).map (fun p => (.obj p.1, p.2))
        | [] => none
      else if c = '[' then
        match skipWs rest with
        | ']' :: rest2 => some (.arr [], rest2)
        | rest2 => (parseElems fuel rest2).map (fun p => (.arr p.1, p.2))
      else parseNum (c :: rest)
    | [] => none

/-- Parse one or more comma-separated array elements up to `]`. -/
def parseElems : Nat → List Char → Option (List JsonVal × List Char)
  | 0, _ => none
  | Nat.succ fuel, s =>
    match parseVal fuel s with
    | none => none
    | some (v, rest) =>
      match skipWs rest with
      | ',' :: rest2 =>
        (parseElems fuel rest2).map (fun p => (v :: p.1, p.2))
      | ']' :: rest2 => some ([v], rest2)
      | _ => none

/-- Parse one or more comma-separated object members up to the closing
brace. -/
def parseFields : Nat → List Char → Option (List (String × JsonVal) × List Char)
  | 0, _ => none
  | Nat.succ fuel, s =>
    match skipWs s with
    | '"' :: rest =>
      match parseStrChars rest with
      | none => none
      | some (key, rest1) =>
        match skipWs rest1 with
        | ':' :: rest2 =>
          match parseVal fuel rest2 with
          | none => none
          | some (v, rest3) =>
            match skipWs rest3 with
            | ',' :: rest4 =>
              (parseFields fuel rest4).map
                (fun p => ((String.mk key, v) :: p.1, p.2))
            | c :: rest4 =>
              if c = rbrace then some ([(String.mk key, v)], rest4) else none
            | [] => none
        | _ => none
    | _ => none

end



/-- Model of `JSON.parse`: parse one value and require only whitespace
after it. -/
def jsonParse (s : String) : Option JsonVal :=
  match parseVal (s.length + 1) s.data with
  | some (v, rest) => if (skipWs rest).isEmpty then some v else none
  | none => none

/-- Whether the pre-exponent part of a number lexeme has only zero digits
(i.e. the numeric value is zero).  Underflow of extreme exponents to zero is
not modelled; no JSON number lexeme relevant here exercises it. -/
def zeroLexeme (lex : String) : Bool :=
  (lex.data.takeWhile (fun c => !(c = 'e' || c = 'E'))).all
    (fun c => !c.isDigit || c = '0')

/-- JavaScript truthiness of a JSON value. -/
def jsTruthy : JsonVal → Bool
  | .null => false
  | .bool b => b
  | .num lex => !zeroLexeme lex
  | .str s => !s.isEmpty
  | .arr _ => true
  | .obj _ => true

/-- Truthiness of a possibly-absent (`undefined`) value. -/
def jsTruthyOpt : Option JsonVal → Bool
  | none => false
  | some v => jsTruthy v

/-- The binding of a key in a JSON object, last occurrence winning as in
`JSON.parse`. -/
def lookupLast (k : String) : List (String × JsonVal) → Option JsonVal
  | [] => none
  | f :: rest =>
    match lookupLast k rest with
    | some w => some w
    | none => if f.1 = k then some f.2 else none

/-- JavaScript property access `v[k]` on a JSON value: `undefined` (`none`)
unless `v` is an object carrying the key.  (Accessing a property of `null`
throws; callers model that case explicitly.) -/
def jsGet (v : JsonVal) (k : String) : Option JsonVal :=
  match v with
  | .obj fs => lookupLast k fs
  | _ => none

/-- JavaScript `x ?? d` where `x` may be `undefined` (`none`) or `null`. -/
def jsCoalesce (x : Option JsonVal) (d : JsonVal) : JsonVal :=
  match x with
  | none => d
  | some .null => d
  | some v => v

/-- JavaScript `x || d` for a possibly-absent value. -/
def jsOrDefault (x : Option JsonVal) (d : JsonVal) : JsonVal :=
  match x with
  | none => d
  | some v => if jsTruthy v then v else d

/-- Optional chain `v?.k1?.k2` (for a non-nullish `v`). -/
def chain2 (v : JsonVal) (k1 k2 : String) : Option JsonVal :=
  match jsGet v k1 with
  | none => none
  | some .null => none
  | some w => jsGet w k2

/-- Lower-case a string character-wise (ASCII-faithful model of
`String.prototype.toLowerCase`). -/
def lowerStr (s : String) : String :=
  String.mk (s.data.map Char.toLower)

/-- JavaScript regular-expression whitespace class membership (ASCII part). -/
def isJsWs (c : Char) : Bool :=
  c = ' ' || c = '\t' || c = '\n' || c = '\r' || c = '\x0b' || c = '\x0c'

/-- Replace each maximal run of whitespace by a single hyphen, as
`.replace(/\s+/g, "-")` does.  The flag records whether the previous
character was part of a whitespace run. -/
def replaceWsAux : Bool → List Char → List Char
  | _, [] => []
  | inRun, c :: rest =>
    if isJsWs c then
      (if inRun then [] else ['-']) ++ replaceWsAux true rest
    else c :: replaceWsAux false rest

/-- `.replace(/\s+/g, "-")` on a string. -/
def replaceWsRuns (s : String) : String :=
  String.mk (replaceWsAux false s.data)

/-- Index of the first occurrence of a character, if any. -/
def idxFrom (c : Char) : List Char → Option Nat
  | [] => none
  | x :: xs => if x = c then some 0 else (idxFrom c xs).map (· + 1)

/-- Index of the last occurrence of a character, if any. -/
def lastIdxFrom (c : Char) : List Char → Option Nat
  | [] => none
  | x :: xs =>
    match lastIdxFrom c xs with
    | some n => some (n + 1)
    | none => if x = c then some 0 else none

/-- `String.prototype.indexOf` for a single character (`-1` when absent). -/
def jsIndexOf (l : List Char) (c : Char) : Int :=
  match idxFrom c l with
  | some n => (n : Int)
  | none => -1

/-- `String.prototype.lastIndexOf` for a single character. -/
def jsLastIndexOf (l : List Char) (c : Char) : Int :=
  match lastIdxFrom c l with
  | some n => (n : Int)
  | none => -1

/-- ECMAScript `String.prototype.substring`: clamp both indices into the
string, then take the span between the smaller and the larger. -/
def jsSubstring (l : List Char) (a b : Int) : List Char :=
  let a2 : Nat := min a.toNat l.length
  let b2 : Nat := min b.toNat l.length
  (l.drop (min a2 b2)).take (max a2 b2 - min a2 b2)

/-- Lines 52–61 of the route: locate the first left brace and the last right
brace of the model response; the substring between them (inclusive). -/
def extractedStr (text : String) : String :=
  String.mk
    (jsSubstring text.data (jsIndexOf text.data lbrace)
      (jsLastIndexOf text.data rbrace + 1))

/-- Lines 52–61: if either brace is absent the route throws ("Could not find
a valid JSON object…", modelled as `none`); otherwise the extracted
substring is parsed with `JSON.parse` (parse failure also throws). -/
def extractParse (text : String) : Option JsonVal :=
  if jsIndexOf text.data lbrace = -1 ∨ jsLastIndexOf text.data rbrace = -1 then none
  else jsonParse (extractedStr text)

/-- The row inserted into `portfolio_data` (lines 65–80). -/
structure PortfolioDataRow where
  user_id : JsonVal
  personal_info : JsonVal
  experience : JsonVal
  education : JsonVal
  skills : JsonVal
  projects : JsonVal
  certifications : JsonVal
  achievements : JsonVal
  languages : JsonVal
  ai_enhanced : Bool

/-- The row inserted into `portfolios` (lines 89–115). -/
structure PortfolioRow where
  user_id : JsonVal
  portfolio_data_id : Nat
  title : JsonVal
  slug : String
  template_id : JsonVal
  html_content : JsonVal
  css_content : JsonVal
  js_content : JsonVal
  metadata : JsonVal
  customizations : JsonVal
  is_published : Bool
  view_count : Nat

/-- Outcomes of the external collaborators for one request: the environment
credential, the model call, the two inserts, and `Date.now()`. -/
structure Oracle where
  apiKey : Option String
  genResult : Except String String
  dataInsert : Except String Nat
  portfolioInsert : Except String Unit
  now : Nat

/-- Observable side effects of one request.  `…Attempts` records rows sent
to the store; `…Rows` records rows the store accepted. -/
structure Effects where
  genCalled : Bool
  dataInsertAttempts : List PortfolioDataRow
  dataRows : List PortfolioDataRow
  portfolioInsertAttempts : List PortfolioRow
  portfolioRows : List PortfolioRow

/-- No effects yet. -/
def emptyEffects : Effects := ⟨false, [], [], [], []⟩

/-- Effects after the model call alone. -/
def e1Effects : Effects := { emptyEffects with genCalled := true }

/-- A JSON HTTP response (`NextResponse.json`; status defaults to 200). -/
structure ApiResponse where
  status : Nat
  body : JsonVal

/-- Line 11: `NextResponse.json(⦃error …⦄, ⦃status: 400⦄)`. -/
def errorNoDataResp : ApiResponse :=
  ⟨400, .obj [("error", .str "No structured data provided")]⟩

/-- Lines 130–133 and 154: `NextResponse.json(⦃success: true, portfolio⦄)`. -/
def successResp (portfolio : JsonVal) : ApiResponse :=
  ⟨200, .obj [("success", .bool true), ("portfolio", portfolio)]⟩

/-- Line 15: `!apiKey` — the credential is missing when the environment
variable is absent or empty. -/
def keyMissing : Option String → Bool
  | none => true
  | some s => s.isEmpty

/-- The hardcoded fallback HTML document (lines 138–150), transcribed with
its template-literal whitespace. -/
def fallbackHtml : String :=
  "\n          <!DOCTYPE html>\n          <html>\n            <head>\n              <title>My Portfolio</title>\n              <style></style>\n            </head>\n            <body>\n              <h1>Hello, World!</h1>\n              <p>Could not generate portfolio. This is fallback content.</p>\n              <script></script>\n            </body>\n          </html>"

/-- The hardcoded fallback stylesheet (line 151). -/
def fallbackCss : String :=
  "body \x7b font-family: sans-serif; text-align: center; color: #333; \x7d"

/-- The hardcoded fallback script (line 152). -/
def fallbackJs : String :=
  "console.log(\"Portfolio generation failed.\");"

/-- The fixed fallback content triple (lines 137–153). -/
def fallbackPortfolio : JsonVal :=
  .obj [("html", .str fallbackHtml), ("css", .str fallbackCss), ("js", .str fallbackJs)]

/-- The `portfolio_data` row built on lines 67–78: every structured-data
category serialized, absent categories defaulting via `||` to an empty
object (personal info) or an empty array.  (`JSON.stringify` of the stored
column values is pure serialization; the stored JSON value is kept.) -/
def mkDataRow (uid sd : JsonVal) : PortfolioDataRow :=
  { user_id := uid
    personal_info := jsOrDefault (jsGet sd "personal_info") (.obj [])
    experience := jsOrDefault (jsGet sd "experience") (.arr [])
    education := jsOrDefault (jsGet sd "education") (.arr [])
    skills := jsOrDefault (jsGet sd "skills") (.arr [])
    projects := jsOrDefault (jsGet sd "projects") (.arr [])
    certifications := jsOrDefault (jsGet sd "certifications") (.arr [])
    achievements := jsOrDefault (jsGet sd "achievements") (.arr [])
    languages := jsOrDefault (jsGet sd "languages") (.arr [])
    ai_enhanced := true }

/-- The slug base expression of line 95:
`structuredData?.personal_info?.name?.toLowerCase().replace(/\s+/g, "-") ?? "portfolio"`.
A nullish name falls back to `"portfolio"`; a non-string, non-nullish name
makes `.toLowerCase()` throw a TypeError (`Except.error`). -/
def slugBase (sd : JsonVal) : Except Unit String :=
  match chain2 sd "personal_info" "name" with
  | none => .ok "portfolio"
  | some .null => .ok "portfolio"
  | some (.str s) => .ok (replaceWsRuns (lowerStr s))
  | some _ => .error ()

/-- The default metadata object of lines 102–106. -/
def defaultMetadata (sd : JsonVal) : JsonVal :=
  .obj [("title", jsCoalesce (chain2 sd "personal_info" "name") (.str "My Portfolio")),
        ("description", .str "Portfolio generated by AI"),
        ("keywords", .arr [.str "portfolio", .str "resume", .str "AI"])]

/-- The default customizations object of lines 107–111. -/
def defaultCustomizations : JsonVal :=
  .obj [("colors", .obj [("primary", .str "#000000"), ("secondary", .str "#ffffff")]),
        ("layout", .str "default"),
        ("sections", .arr [.str "about", .str "experience", .str "projects", .str "contact"])]

/-- Building the `portfolios` row object literal of lines 91–115.  The slug
expression can throw (non-string name), and the `generatedCode.html` access
throws when the parsed value is `null`; either aborts the insert. -/
def buildPortfolioRow (uid : JsonVal) (dataId : Nat) (sd gc : JsonVal) (now : Nat) :
    Except Unit PortfolioRow :=
  match slugBase sd with
  | .error _ => .error ()
  | .ok sb =>
    match gc with
    | .null => .error ()
    | _ =>
      .ok
        { user_id := uid
          portfolio_data_id := dataId
          title := jsCoalesce (chain2 sd "personal_info" "name") (.str "Untitled Portfolio")
          slug := sb ++ "-" ++ Nat.repr now
          template_id := jsCoalesce (jsGet sd "template_id") (.str "default-template")
          html_content := jsCoalesce (jsGet gc "html") (.str "")
          css_content := jsCoalesce (jsGet gc "css") (.str "")
          js_content := jsCoalesce (jsGet gc "js") (.str "")
          metadata := jsCoalesce (jsGet sd "metadata") (defaultMetadata sd)
          customizations := jsCoalesce (jsGet sd "customizations") defaultCustomizations
          is_published := false
          view_count := 0 }

/-- Outcome of the `try` block: a returned response, or a thrown exception
caught at line 134. -/
inductive TryOutcome where
  | ok (resp : ApiResponse)
  | thrown

/-- Lines 63–125: the persistence block guarded by `if (userId)`.  Phase A
inserts `portfolio_data` and asks back the id; on error the block throws
(line 84).  Phase B builds the `portfolios` row with the id of phase A and
inserts it; on error the block throws (line 121). -/
def persistPhase (o : Oracle) (sd uid gc : JsonVal) : TryOutcome × Effects :=
  let dataRow := mkDataRow uid sd
  let e2 := { e1Effects with dataInsertAttempts := [dataRow] }
  match o.dataInsert with
  | .error _ => (.thrown, e2)
  | .ok newId =>
    let e3 := { e2 with dataRows := [dataRow] }
    match buildPortfolioRow uid newId sd gc o.now with
    | .error _ => (.thrown, e3)
    | .ok prow =>
      let e4 := { e3 with portfolioInsertAttempts := [prow] }
      match o.portfolioInsert with
      | .error _ => (.thrown, e4)
      | .ok _ => (.ok (successResp gc), { e4 with portfolioRows := [prow] })

/-- The body of the `try` block of `POST` (lines 8–133).  The request body
is already parsed (`request.json()`); `structuredData`/`userId` are `none`
when the field is absent.  Line 10 checks `!structuredData` (falsy), line 15
throws on a missing credential, the model call consults the oracle, lines
52–61 extract-and-parse, and lines 63–125 persist when `userId` is truthy.
The prompt construction of lines 21–50 is pure string templating with no
effect on control flow and is not replayed here. -/
def tryBody (o : Oracle) (structuredData userId : Option JsonVal) :
    TryOutcome × Effects :=
  match structuredData with
  | none => (.ok errorNoDataResp, emptyEffects)
  | some sd =>
    if jsTruthy sd then
      if keyMissing o.apiKey then (.thrown, emptyEffects)
      else
        match o.genResult with
        | .error _ => (.thrown, e1Effects)
        | .ok text =>
          match extractParse text with
          | none => (.thrown, e1Effects)
          | some gc =>
            match userId with
            | some uid =>
              if jsTruthy uid then persistPhase o sd uid gc
              else (.ok (successResp gc), e1Effects)
            | none => (.ok (successResp gc), e1Effects)
    else (.ok errorNoDataResp, emptyEffects)

/-- The route handler `POST`: the `try` block, with the `catch` of lines
134–155 turning any thrown error into the 200 fallback response. -/
def POST (o : Oracle) (structuredData userId : Option JsonVal) :
    ApiResponse × Effects :=
  match tryBody o structuredData userId with
  | (.ok r, e) => (r, e)
  | (.thrown, e) => (successResp fallbackPortfolio, e)

/-- A raw `resumes` row as returned by the store; optional columns may be
absent (`none`) or `null`. -/
structure RawResume where
  id : JsonVal
  user_id : Option JsonVal
  filename : JsonVal
  file_size : JsonVal
  file_url : Option JsonVal
  extracted_text : Option JsonVal
  pages_count : Option JsonVal
  processing_status : Option JsonVal
  created_at : JsonVal
  updated_at : Option JsonVal

/-- The `Resume` record produced for rendering. -/
structure Resume where
  id : JsonVal
  user_id : JsonVal
  filename : JsonVal
  file_size : JsonVal
  file_url : JsonVal
  extracted_text : JsonVal
  pages_count : JsonVal
  processing_status : JsonVal
  created_at : JsonVal
  updated_at : JsonVal

/-- A raw `portfolios` row as returned by the store. -/
structure RawPortfolio where
  id : JsonVal
  user_id : Option JsonVal
  portfolio_data_id : Option JsonVal
  title : Option JsonVal
  slug : Option JsonVal
  template_id : Option JsonVal
  html_content : Option JsonVal
  css_content : Option JsonVal
  js_content : Option JsonVal
  metadata : Option JsonVal
  customizations : Option JsonVal
  is_published : Option JsonVal
  view_count : Option JsonVal
  last_viewed_at : Option JsonVal
  created_at : JsonVal
  updated_at : Option JsonVal

/-- The `Portfolio` record produced for rendering. -/
structure Portfolio where
  id : JsonVal
  user_id : JsonVal
  portfolio_data_id : JsonVal
  title : JsonVal
  slug : JsonVal
  template_id : JsonVal
  html_content : JsonVal
  css_content : JsonVal
  js_content : JsonVal
  metadata : JsonVal
  customizations : JsonVal
  is_published : Bool
  view_count : JsonVal
  last_viewed_at : JsonVal
  created_at : JsonVal
  updated_at : JsonVal

/-- Lines 88–99 of the dashboard page: one resume row with documented
defaults substituted. -/
def mapResume (userId : JsonVal) (r : RawResume) : Resume :=
  { id := r.id
    user_id := jsCoalesce r.user_id userId
    filename := r.filename
    file_size := r.file_size
    file_url := jsCoalesce r.file_url (.str "")
    extracted_text := jsCoalesce r.extracted_text (.str "")
    pages_count := jsCoalesce r.pages_count (.num "0")
    processing_status := jsCoalesce r.processing_status (.str "completed")
    created_at := r.created_at
    updated_at := jsCoalesce r.updated_at r.created_at }

/-- The empty metadata descriptor used as the dashboard default (line 116). -/
def emptyMetadataDescriptor : JsonVal :=
  .obj [("title", .str ""), ("description", .str ""), ("keywords", .arr [])]

/-- Lines 106–123 of the dashboard page: one portfolio row with documented
defaults substituted (`!!p.is_published` is truthiness). -/
def mapPortfolio (userId : JsonVal) (p : RawPortfolio) : Portfolio :=
  { id := p.id
    user_id := jsCoalesce p.user_id userId
    portfolio_data_id := jsCoalesce p.portfolio_data_id (.str "")
    title := jsCoalesce p.title (.str "Untitled Portfolio")
    slug := jsCoalesce p.slug (.str "")
    template_id := jsCoalesce p.template_id (.str "")
    html_content := jsCoalesce p.html_content (.str "")
    css_content := jsCoalesce p.css_content (.str "")
    js_content := jsCoalesce p.js_content (.str "")
    metadata := jsCoalesce p.metadata emptyMetadataDescriptor
    customizations := jsCoalesce p.customizations (.obj [])
    is_published := jsTruthyOpt p.is_published
    view_count := jsCoalesce p.view_count (.num "0")
    last_viewed_at := jsCoalesce p.last_viewed_at .null
    created_at := p.created_at
    updated_at := jsCoalesce p.updated_at p.created_at }

/-- `resumesRes.data.map(…)` of line 88. -/
def mapResumes (userId : JsonVal) (rows : List RawResume) : List Resume :=
  rows.map (mapResume userId)

/-- `portfoliosRes.data.map(…)` of line 106. -/
def mapPortfolios (userId : JsonVal) (rows : List RawPortfolio) : List Portfolio :=
  rows.map (mapPortfolio userId)

/-- Oracle for the C7 witness: credential set, model answers an empty JSON
object, both inserts would succeed. -/
def w7o : Oracle := ⟨some "k", .ok "\x7b\x7d", .ok 1, .ok (), 0⟩

/-- Oracle with the generation-service credential absent from the
environment. -/
def c3Oracle : Oracle := ⟨none, .ok "x", .ok 1, .ok (), 0⟩

/-- Oracle for the C2 witness: the model answers prose with no JSON at
all. -/
def w2o : Oracle := ⟨some "k", .ok "no json here", .error "e", .error "e", 0⟩

/-- Oracle for the C1 witness: phase A fails with a database error. -/
def w1o : Oracle := ⟨some "k", .ok "\x7b\"html\":\"h\"\x7d", .error "db down", .ok (), 0⟩

/-- Oracle for the C10 counterexample. -/
def c10o : Oracle := ⟨some "k", .ok "\x7d5\x7b", .ok 1, .ok (), 0⟩

/-- Oracle for the C10 witness: the swapped substring is the letter a,
which is not valid JSON. -/
def w10o : Oracle := ⟨some "k", .ok "\x7da\x7b", .error "db", .error "db", 0⟩

/-- Modelled from the claim's words for C4: the triple the claim says is
returned to the caller — all three keys present as strings, keys missing
from the parsed result defaulted to the empty string. -/
def claimDefaultedTriple (gc : JsonVal) : JsonVal :=
  .obj [("html", jsCoalesce (jsGet gc "html") (.str "")),
        ("css", jsCoalesce (jsGet gc "css") (.str "")),
        ("js", jsCoalesce (jsGet gc "js") (.str ""))]

/-- Oracle for the C4 counterexample: the model answers a well-formed JSON
object that carries only the html key. -/
def c4o : Oracle := ⟨some "k", .ok "\x7b\"html\":\"a\"\x7d", .ok 1, .ok (), 0⟩

/-- The parsed result of the C4 counterexample response. -/
def c4gc : JsonVal := .obj [("html", .str "a")]

/-- Oracle for the C4 witness (same response shape, inserts succeed). -/
def w4o : Oracle := ⟨some "k", .ok "\x7b\"html\":\"a\"\x7d", .ok 3, .ok (), 5⟩

/-- The rows the C4 witness run persists. -/
def c4rows : List PortfolioRow :=
  (POST w4o (some (JsonVal.obj [])) (some (JsonVal.str "u"))).2.portfolioRows

instance : Inhabited PortfolioRow :=
  ⟨{ user_id := default, portfolio_data_id := 0, title := default, slug := "",
     template_id := default, html_content := default, css_content := default,
     js_content := default, metadata := default, customizations := default,
     is_published := false, view_count := 0 }⟩

/-- The single portfolio row of the C4 witness run. -/
def rowC4 : PortfolioRow := c4rows.headI

/-- Modelled from the claim's words for C8: "slug is the lowercased name
plus a timestamp". -/
def specSlugOfName (name : String) (now : Nat) : String :=
  lowerStr name ++ "-" ++ Nat.repr now

/-- Oracle for the C8 counterexample run. -/
def c8co : Oracle := ⟨some "k", .ok "\x7b\"html\":\"h\"\x7d", .ok 1, .ok (), 0⟩

/-- Structured data with a two-word personal-info name. -/
def c8csd : JsonVal := .obj [("personal_info", .obj [("name", .str "John Doe")])]

/-- The rows persisted in the C8 counterexample run. -/
def c8crows : List PortfolioRow :=
  (POST c8co (some c8csd) (some (JsonVal.str "u"))).2.portfolioRows

/-- Oracle for the C8 witness run (timestamp 7). -/
def c8o : Oracle := ⟨some "k", .ok "\x7b\"html\":\"h\"\x7d", .ok 1, .ok (), 7⟩

/-- Structured data with the one-word name Alice. -/
def c8sd : JsonVal := .obj [("personal_info", .obj [("name", .str "Alice")])]

/-- The rows persisted in the C8 witness run. -/
def c8rows : List PortfolioRow :=
  (POST c8o (some c8sd) (some (JsonVal.str "u1"))).2.portfolioRows

/-- The single portfolio row of the C8 witness run. -/
def rowC8 : PortfolioRow := c8rows.headI

/-- A raw resume row with no optional columns, for the C9 witness. -/
def w9r : RawResume :=
  ⟨.str "r1", none, .str "cv.pdf", .num "12345", none, none, none, none, .str "t0", none⟩

/-- A raw portfolio row with no optional columns, for the C9 witness. -/
def w9p : RawPortfolio :=
  ⟨.str "p1", none, none, none, none, none, none, none, none, none, none, none,
    none, none, .str "t0", none⟩

/-! ## Lemmas and claim theorems -/

/-- C6: for every request payload lacking the structuredData field, the
endpoint returns a 400 response with body error "No structured data
provided", performs no generation (network) call and no persistence
writes. -/
theorem C6_missing_structured_data (o : Oracle) (userId : Option JsonVal) :
    POST o none userId = (errorNoDataResp, emptyEffects) ∧
    errorNoDataResp.status = 400 ∧
    errorNoDataResp.body = .obj [("error", .str "No structured data provided")] ∧
    emptyEffects.genCalled = false ∧
    emptyEffects.dataInsertAttempts = [] ∧
    emptyEffects.portfolioInsertAttempts = [] :=
  ⟨rfl, rfl, rfl, rfl, rfl, rfl⟩

/-- C7: when no user identity is supplied, a successful generation returns
the generated content triple and creates zero persisted records in either
collection. -/
theorem C7_no_user_no_persistence (o : Oracle) (sd gc : JsonVal) (text : String)
    (hsd : jsTruthy sd = true) (hkey : keyMissing o.apiKey = false)
    (hgen : o.genResult = .ok text) (hext : extractParse text = some gc) :
    POST o (some sd) none = (successResp gc, e1Effects) ∧
    e1Effects.dataInsertAttempts = [] ∧ e1Effects.dataRows = [] ∧
    e1Effects.portfolioInsertAttempts = [] ∧ e1Effects.portfolioRows = [] := by
  refine ⟨?_, rfl, rfl, rfl, rfl⟩
  simp [POST, tryBody, hsd, hkey, hgen, hext]

/-- Witness for C7 at a concrete successful generation without a user. -/
theorem C7_no_user_no_persistence_witness :
    jsTruthy (JsonVal.obj []) = true ∧ keyMissing w7o.apiKey = false ∧
    w7o.genResult = .ok "\x7b\x7d" ∧ extractParse "\x7b\x7d" = some (.obj []) ∧
    POST w7o (some (.obj [])) none = (successResp (.obj []), e1Effects) :=
  ⟨rfl, rfl, rfl, rfl,
    (C7_no_user_no_persistence w7o (.obj []) (.obj []) "\x7b\x7d" rfl rfl rfl rfl).1⟩

/-- C3 counterexample: with the credential missing the route does throw
before the network call, but the exception is caught by the catch-all of
line 134, so the request is answered with the 200 fallback response — it is
recovered through the fallback path, not surfaced as a 5xx/exception as the
claim states. -/
theorem C3_counterexample :
    POST c3Oracle (some (.obj [])) none = (successResp fallbackPortfolio, emptyEffects) ∧
    (POST c3Oracle (some (.obj [])) none).1.status = 200 ∧
    (POST c3Oracle (some (.obj [])) none).2.genCalled = false :=
  ⟨rfl, rfl, rfl⟩

/-- C3 amended: if the credential is not configured the request throws
before attempting the network call (no generation call, no persistence),
but the error is caught by the workflow's catch-all and the fixed fallback
triple is returned with a 200 success response. -/
theorem C3_missing_key_fallback (o : Oracle) (sd : JsonVal) (uid : Option JsonVal)
    (hsd : jsTruthy sd = true) (hkey : keyMissing o.apiKey = true) :
    POST o (some sd) uid = (successResp fallbackPortfolio, emptyEffects) ∧
    emptyEffects.genCalled = false ∧ emptyEffects.dataInsertAttempts = [] ∧
    emptyEffects.portfolioInsertAttempts = [] := by
  refine ⟨?_, rfl, rfl, rfl⟩
  simp [POST, tryBody, hsd, hkey]

/-- Witness for the amended C3 at a concrete missing-credential oracle. -/
theorem C3_missing_key_fallback_witness :
    jsTruthy (JsonVal.obj []) = true ∧ keyMissing c3Oracle.apiKey = true ∧
    POST c3Oracle (some (.obj [])) none = (successResp fallbackPortfolio, emptyEffects) :=
  ⟨rfl, rfl, (C3_missing_key_fallback c3Oracle (.obj []) none rfl rfl).1⟩

/-- C2: for every generation response with no left brace or no right brace,
and for every response whose bracketed substring is malformed JSON, the
workflow returns the fixed fallback triple with a success indicator and
performs no persistence writes. -/
theorem C2_fallback_on_unparseable (o : Oracle) (sd : JsonVal) (uid : Option JsonVal)
    (text : String)
    (hsd : jsTruthy sd = true) (hkey : keyMissing o.apiKey = false)
    (hgen : o.genResult = .ok text)
    (hbad : jsIndexOf text.data lbrace = -1 ∨ jsLastIndexOf text.data rbrace = -1 ∨
      jsonParse (extractedStr text) = none) :
    POST o (some sd) uid = (successResp fallbackPortfolio, e1Effects) ∧
    (successResp fallbackPortfolio).status = 200 ∧
    (successResp fallbackPortfolio).body =
      .obj [("success", .bool true), ("portfolio", fallbackPortfolio)] ∧
    e1Effects.dataInsertAttempts = [] ∧ e1Effects.dataRows = [] ∧
    e1Effects.portfolioInsertAttempts = [] ∧ e1Effects.portfolioRows = [] := by
  have hext : extractParse text = none := by
    unfold extractParse
    rcases hbad with h | h | h
    · rw [if_pos (Or.inl h)]
    · rw [if_pos (Or.inr h)]
    · split
      · rfl
      · exact h
  refine ⟨?_, rfl, rfl, rfl, rfl, rfl, rfl⟩
  simp [POST, tryBody, hsd, hkey, hgen, hext]

/-- Witness for C2 at a concrete brace-free response. -/
theorem C2_fallback_on_unparseable_witness :
    jsTruthy (JsonVal.obj []) = true ∧ keyMissing w2o.apiKey = false ∧
    w2o.genResult = .ok "no json here" ∧
    jsIndexOf "no json here".data lbrace = -1 ∧
    POST w2o (some (.obj [])) none = (successResp fallbackPortfolio, e1Effects) :=
  ⟨rfl, rfl, rfl, rfl,
    (C2_fallback_on_unparseable w2o (.obj []) none "no json here" rfl rfl rfl
      (Or.inl rfl)).1⟩

/-- A successfully built `portfolios` row carries the identifier returned by
phase A. -/
lemma buildPortfolioRow_data_id (uid : JsonVal) (dataId : Nat) (sd gc : JsonVal)
    (now : Nat) (prow : PortfolioRow)
    (h : buildPortfolioRow uid dataId sd gc now = .ok prow) :
    prow.portfolio_data_id = dataId := by
  unfold buildPortfolioRow at h
  cases hs : slugBase sd <;> rw [hs] at h
  · exact Except.noConfusion h
  · cases gc with
    | null => exact Except.noConfusion h
    | bool b => injection h with h2; subst h2; rfl
    | num l => injection h with h2; subst h2; rfl
    | str s => injection h with h2; subst h2; rfl
    | arr a => injection h with h2; subst h2; rfl
    | obj f => injection h with h2; subst h2; rfl

/-- The second projection of `POST` is the second projection of the `try`
body: the `catch` clause changes the response, never the effects. -/
lemma POST_snd (o : Oracle) (a b : Option JsonVal) :
    (POST o a b).2 = (tryBody o a b).2 := by
  unfold POST
  rcases h : tryBody o a b with ⟨out, e⟩
  cases out <;> simp

/-- `POST` on a thrown body returns the fallback response with the effects
accumulated so far. -/
lemma POST_of_thrown (o : Oracle) (a b : Option JsonVal) (e : Effects)
    (h : tryBody o a b = (.thrown, e)) :
    POST o a b = (successResp fallbackPortfolio, e) := by
  unfold POST
  rw [h]

/-- On the persistence path (truthy structured data and user id, credential
present, generation and extraction successful) the `try` body is exactly the
two-phase persistence block. -/
lemma tryBody_persist (o : Oracle) (sd uid gc : JsonVal) (text : String)
    (hsd : jsTruthy sd = true) (huid : jsTruthy uid = true)
    (hkey : keyMissing o.apiKey = false)
    (hgen : o.genResult = .ok text) (hext : extractParse text = some gc) :
    tryBody o (some sd) (some uid) = persistPhase o sd uid gc := by
  simp [tryBody, hsd, huid, hkey, hgen, hext]

/-- If phase A fails, the block throws with only the attempted
`portfolio_data` insert on record: phase B is never attempted. -/
lemma persistPhase_dataFail (o : Oracle) (sd uid gc : JsonVal) (e : String)
    (hd : o.dataInsert = .error e) :
    persistPhase o sd uid gc =
      (.thrown, ⟨true, [mkDataRow uid sd], [], [], []⟩) := by
  unfold persistPhase
  rw [hd]
  rfl

/-- If phase A succeeds but building the `portfolios` row throws, the block
throws with phase A committed and phase B never attempted. -/
lemma persistPhase_rowFail (o : Oracle) (sd uid gc : JsonVal) (newId : Nat)
    (hd : o.dataInsert = .ok newId)
    (hb : buildPortfolioRow uid newId sd gc o.now = .error ()) :
    persistPhase o sd uid gc =
      (.thrown, ⟨true, [mkDataRow uid sd], [mkDataRow uid sd], [], []⟩) := by
  unfold persistPhase
  rw [hd]
  simp [hb, e1Effects, emptyEffects]

/-- If phase A succeeds and the row builds but the phase-B insert fails, the
block throws after attempting phase B. -/
lemma persistPhase_insFail (o : Oracle) (sd uid gc : JsonVal) (newId : Nat)
    (prow : PortfolioRow) (e : String)
    (hd : o.dataInsert = .ok newId)
    (hb : buildPortfolioRow uid newId sd gc o.now = .ok prow)
    (hp : o.portfolioInsert = .error e) :
    persistPhase o sd uid gc =
      (.thrown, ⟨true, [mkDataRow uid sd], [mkDataRow uid sd], [prow], []⟩) := by
  unfold persistPhase
  rw [hd]
  simp [hb, hp, e1Effects, emptyEffects]

/-- When both inserts succeed, the block returns the generated content with
both rows committed. -/
lemma persistPhase_allOk (o : Oracle) (sd uid gc : JsonVal) (newId : Nat)
    (prow : PortfolioRow)
    (hd : o.dataInsert = .ok newId)
    (hb : buildPortfolioRow uid newId sd gc o.now = .ok prow)
    (hp : o.portfolioInsert = .ok ()) :
    persistPhase o sd uid gc =
      (.ok (successResp gc),
        ⟨true, [mkDataRow uid sd], [mkDataRow uid sd], [prow], [prow]⟩) := by
  unfold persistPhase
  rw [hd]
  simp [hb, hp, e1Effects, emptyEffects]

/-- Whenever the phase-B insert is attempted, phase A committed the
`portfolio_data` row and yielded the identifier the attempted row
references. -/
lemma persistPhase_attempts_link (o : Oracle) (sd uid gc : JsonVal) :
    ∀ prow ∈ (persistPhase o sd uid gc).2.portfolioInsertAttempts,
      o.dataInsert = .ok prow.portfolio_data_id ∧
      (persistPhase o sd uid gc).2.dataRows = [mkDataRow uid sd] := by
  intro prow hmem
  cases hd : o.dataInsert with
  | error e2 =>
    rw [persistPhase_dataFail o sd uid gc e2 hd] at hmem
    simp at hmem
  | ok newId =>
    cases hb : buildPortfolioRow uid newId sd gc o.now with
    | error e3 =>
      rw [persistPhase_rowFail o sd uid gc newId hd hb] at hmem
      simp at hmem
    | ok prow2 =>
      cases hp : o.portfolioInsert with
      | error e4 =>
        rw [persistPhase_insFail o sd uid gc newId prow2 e4 hd hb hp] at hmem ⊢
        simp only [List.mem_singleton] at hmem
        rw [hmem, buildPortfolioRow_data_id uid newId sd gc o.now prow2 hb]
        exact ⟨rfl, rfl⟩
      | ok u =>
        rw [persistPhase_allOk o sd uid gc newId prow2 hd hb hp] at hmem ⊢
        simp only [List.mem_singleton] at hmem
        rw [hmem, buildPortfolioRow_data_id uid newId sd gc o.now prow2 hb]
        exact ⟨rfl, rfl⟩

/-- C1: two-phase persistence ordering — with a user identity supplied and
generation successful, every attempted `portfolios` insert happens only
after the `portfolio_data` insert completed and yielded the identifier the
row references via `portfolio_data_id`; and if the first insert fails, the
second is never attempted and the workflow returns the fallback content. -/
theorem C1_two_phase_persistence (o : Oracle) (sd uid gc : JsonVal) (text : String)
    (hsd : jsTruthy sd = true) (huid : jsTruthy uid = true)
    (hkey : keyMissing o.apiKey = false)
    (hgen : o.genResult = .ok text) (hext : extractParse text = some gc) :
    (∀ prow ∈ (POST o (some sd) (some uid)).2.portfolioInsertAttempts,
        o.dataInsert = .ok prow.portfolio_data_id ∧
        (POST o (some sd) (some uid)).2.dataRows = [mkDataRow uid sd]) ∧
    (∀ e, o.dataInsert = .error e →
        (POST o (some sd) (some uid)).1 = successResp fallbackPortfolio ∧
        (POST o (some sd) (some uid)).2.portfolioInsertAttempts = []) := by
  have ht := tryBody_persist o sd uid gc text hsd huid hkey hgen hext
  constructor
  · intro prow hmem
    rw [POST_snd, ht] at hmem ⊢
    exact persistPhase_attempts_link o sd uid gc prow hmem
  · intro e hd
    have hpp := persistPhase_dataFail o sd uid gc e hd
    have hpost := POST_of_thrown o (some sd) (some uid) _ (ht.trans hpp)
    rw [hpost]
    exact ⟨rfl, rfl⟩

/-- Witness for C1: at a concrete failing first insert, the fallback is
returned and the second insert is never attempted. -/
theorem C1_two_phase_persistence_witness :
    jsTruthy (JsonVal.obj []) = true ∧ jsTruthy (JsonVal.str "u1") = true ∧
    keyMissing w1o.apiKey = false ∧ w1o.genResult = .ok "\x7b\"html\":\"h\"\x7d" ∧
    extractParse "\x7b\"html\":\"h\"\x7d" = some (.obj [("html", .str "h")]) ∧
    (POST w1o (some (.obj [])) (some (.str "u1"))).1 = successResp fallbackPortfolio ∧
    (POST w1o (some (.obj [])) (some (.str "u1"))).2.portfolioInsertAttempts = [] :=
  ⟨rfl, rfl, rfl, rfl, rfl,
    ((C1_two_phase_persistence w1o (.obj []) (.str "u1") (.obj [("html", .str "h")])
      "\x7b\"html\":\"h\"\x7d" rfl rfl rfl rfl rfl).2 "db down" rfl).1,
    ((C1_two_phase_persistence w1o (.obj []) (.str "u1") (.obj [("html", .str "h")])
      "\x7b\"html\":\"h\"\x7d" rfl rfl rfl rfl rfl).2 "db down" rfl).2⟩

/-- `POST` on a returned body passes the response and effects through. -/
lemma POST_of_ok (o : Oracle) (a b : Option JsonVal) (r : ApiResponse) (e : Effects)
    (h : tryBody o a b = (.ok r, e)) : POST o a b = (r, e) := by
  unfold POST
  rw [h]

/-- Nullish coalescing with a non-null default never yields `null`. -/
lemma jsCoalesce_ne_null (x : Option JsonVal) (d : JsonVal) (h : d ≠ JsonVal.null) :
    jsCoalesce x d ≠ JsonVal.null := by
  cases x with
  | none => exact h
  | some v =>
    cases v with
    | null => exact h
    | bool b => exact fun he => JsonVal.noConfusion he
    | num l => exact fun he => JsonVal.noConfusion he
    | str s => exact fun he => JsonVal.noConfusion he
    | arr a => exact fun he => JsonVal.noConfusion he
    | obj f => exact fun he => JsonVal.noConfusion he

/-- Field values of a successfully built `portfolios` row. -/
lemma buildPortfolioRow_fields (uid : JsonVal) (dataId : Nat) (sd gc : JsonVal)
    (now : Nat) (prow : PortfolioRow)
    (h : buildPortfolioRow uid dataId sd gc now = .ok prow) :
    prow.html_content = jsCoalesce (jsGet gc "html") (.str "") ∧
    prow.css_content = jsCoalesce (jsGet gc "css") (.str "") ∧
    prow.js_content = jsCoalesce (jsGet gc "js") (.str "") ∧
    prow.is_published = false ∧
    prow.view_count = 0 ∧
    prow.title = jsCoalesce (chain2 sd "personal_info" "name") (.str "Untitled Portfolio") ∧
    ∀ sb, slugBase sd = .ok sb → prow.slug = sb ++ "-" ++ Nat.repr now := by
  unfold buildPortfolioRow at h
  cases hs : slugBase sd <;> rw [hs] at h
  · exact Except.noConfusion h
  · cases gc
    case null => exact Except.noConfusion h
    all_goals
      injection h with h2
      subst h2
      refine ⟨rfl, rfl, rfl, rfl, rfl, rfl, fun sb2 hsb => ?_⟩
      injection hsb with h3
      rw [h3]

/-- With a successful slug expression and a non-null parsed value, building
the `portfolios` row succeeds. -/
lemma buildPortfolioRow_isOk (uid : JsonVal) (dataId : Nat) (sd gc : JsonVal)
    (now : Nat) (sb : String)
    (hs : slugBase sd = .ok sb) (hgc : gc ≠ JsonVal.null) :
    ∃ prow, buildPortfolioRow uid dataId sd gc now = .ok prow := by
  unfold buildPortfolioRow
  rw [hs]
  cases gc with
  | null => exact absurd rfl hgc
  | bool b => exact ⟨_, rfl⟩
  | num l => exact ⟨_, rfl⟩
  | str s => exact ⟨_, rfl⟩
  | arr a => exact ⟨_, rfl⟩
  | obj f => exact ⟨_, rfl⟩

/-- Every committed `portfolios` row was built by `buildPortfolioRow` with
the identifier phase A returned. -/
lemma persistPhase_rows (o : Oracle) (sd uid gc : JsonVal) :
    ∀ prow ∈ (persistPhase o sd uid gc).2.portfolioRows,
      ∃ newId, o.dataInsert = .ok newId ∧
        buildPortfolioRow uid newId sd gc o.now = .ok prow := by
  intro prow hmem
  cases hd : o.dataInsert with
  | error e2 =>
    rw [persistPhase_dataFail o sd uid gc e2 hd] at hmem
    simp at hmem
  | ok newId =>
    cases hb : buildPortfolioRow uid newId sd gc o.now with
    | error e3 =>
      rw [persistPhase_rowFail o sd uid gc newId hd hb] at hmem
      simp at hmem
    | ok prow2 =>
      cases hp : o.portfolioInsert with
      | error e4 =>
        rw [persistPhase_insFail o sd uid gc newId prow2 e4 hd hb hp] at hmem
        simp at hmem
      | ok u =>
        rw [persistPhase_allOk o sd uid gc newId prow2 hd hb hp] at hmem
        simp only [List.mem_singleton] at hmem
        exact ⟨newId, rfl, by rw [hmem]; exact hb⟩

/-- Once the structured data is present and truthy, the route always
answers with status 200: every branch either returns a success response or
throws into the catch-all, which also returns 200. -/
lemma POST_status_200_of_truthy (o : Oracle) (sd : JsonVal) (uid : Option JsonVal)
    (hsd : jsTruthy sd = true) : ((POST o (some sd) uid).1).status = 200 := by
  cases hk : keyMissing o.apiKey with
  | true =>
    rw [POST_of_thrown o (some sd) uid emptyEffects (by simp [tryBody, hsd, hk])]
    rfl
  | false =>
    cases hg : o.genResult with
    | error e =>
      rw [POST_of_thrown o (some sd) uid e1Effects (by simp [tryBody, hsd, hk, hg])]
      rfl
    | ok text =>
      cases he : extractParse text with
      | none =>
        rw [POST_of_thrown o (some sd) uid e1Effects (by simp [tryBody, hsd, hk, hg, he])]
        rfl
      | some gc =>
        cases uid with
        | none =>
          rw [POST_of_ok o (some sd) none (successResp gc) e1Effects
            (by simp [tryBody, hsd, hk, hg, he])]
          rfl
        | some u =>
          cases hu : jsTruthy u with
          | false =>
            rw [POST_of_ok o (some sd) (some u) (successResp gc) e1Effects
              (by simp [tryBody, hsd, hk, hg, he, hu])]
            rfl
          | true =>
            have ht := tryBody_persist o sd u gc text hsd hu hk hg he
            cases hd : o.dataInsert with
            | error e2 =>
              rw [POST_of_thrown o (some sd) (some u) _
                (ht.trans (persistPhase_dataFail o sd u gc e2 hd))]
              rfl
            | ok newId =>
              cases hb : buildPortfolioRow u newId sd gc o.now with
              | error e3 =>
                rw [POST_of_thrown o (some sd) (some u) _
                  (ht.trans (persistPhase_rowFail o sd u gc newId hd hb))]
                rfl
              | ok prow =>
                cases hp : o.portfolioInsert with
                | error e4 =>
                  rw [POST_of_thrown o (some sd) (some u) _
                    (ht.trans (persistPhase_insFail o sd u gc newId prow e4 hd hb hp))]
                  rfl
                | ok uu =>
                  rw [POST_of_ok o (some sd) (some u) _ _
                    (ht.trans (persistPhase_allOk o sd u gc newId prow hd hb hp))]
                  rfl

/-- C10 counterexample: the response text right-brace,5,left-brace has both
braces with the last right brace before the first left brace, yet the route
does not return the fallback triple: ECMAScript substring swaps its
arguments, the extracted text is the digit 5, JSON.parse accepts it, and
the parsed number is returned as the portfolio. -/
theorem C10_counterexample :
    jsIndexOf "\x7d5\x7b".data lbrace = 2 ∧
    jsLastIndexOf "\x7d5\x7b".data rbrace = 0 ∧
    extractedStr "\x7d5\x7b" = "5" ∧
    (POST c10o (some (.obj [])) none).1 = successResp (.num "5") ∧
    (POST c10o (some (.obj [])) none).1 ≠ successResp fallbackPortfolio := by
  refine ⟨rfl, rfl, rfl, rfl, fun h => ?_⟩
  rw [show (POST c10o (some (.obj [])) none).1 = successResp (.num "5") from rfl] at h
  simp [successResp, fallbackPortfolio, fallbackHtml, fallbackCss, fallbackJs] at h

/-- C10 amended: for a response with both braces but the last right brace
before the first left brace, the endpoint still answers 200 and never
crashes (every throw is caught); when the swapped-substring extraction is
not valid JSON the fixed fallback triple is returned with no persistence
writes, but when it parses (as in the counterexample) the parsed value is
returned instead. -/
theorem C10_swapped_braces (o : Oracle) (sd : JsonVal) (uid : Option JsonVal)
    (text : String) (i j : Nat) (gc : JsonVal)
    (hsd : jsTruthy sd = true) (hkey : keyMissing o.apiKey = false)
    (hgen : o.genResult = .ok text)
    (hi : jsIndexOf text.data lbrace = (i : Int))
    (hj : jsLastIndexOf text.data rbrace = (j : Int))
    (hij : j < i) :
    ((POST o (some sd) uid).1).status = 200 ∧
    (jsonParse (extractedStr text) = none →
      POST o (some sd) uid = (successResp fallbackPortfolio, e1Effects) ∧
      e1Effects.dataInsertAttempts = [] ∧ e1Effects.portfolioInsertAttempts = []) ∧
    (jsonParse (extractedStr text) = some gc →
      POST o (some sd) none = (successResp gc, e1Effects)) := by
  have hne : ¬(jsIndexOf text.data lbrace = -1 ∨ jsLastIndexOf text.data rbrace = -1) := by
    rw [hi, hj]
    intro h
    rcases h with h | h <;> omega
  refine ⟨POST_status_200_of_truthy o sd uid hsd, fun hp => ⟨?_, rfl, rfl⟩, fun hp => ?_⟩
  · have hext : extractParse text = none := by
      unfold extractParse
      rw [if_neg hne]
      exact hp
    exact POST_of_thrown o (some sd) uid e1Effects (by simp [tryBody, hsd, hkey, hgen, hext])
  · have hext : extractParse text = some gc := by
      unfold extractParse
      rw [if_neg hne]
      exact hp
    exact POST_of_ok o (some sd) none (successResp gc) e1Effects
      (by simp [tryBody, hsd, hkey, hgen, hext])

/-- Witness for the amended C10 at a concrete swapped-brace response whose
extraction fails to parse. -/
theorem C10_swapped_braces_witness :
    jsTruthy (JsonVal.obj []) = true ∧ keyMissing w10o.apiKey = false ∧
    jsIndexOf "\x7da\x7b".data lbrace = ((2 : Nat) : Int) ∧
    jsLastIndexOf "\x7da\x7b".data rbrace = ((0 : Nat) : Int) ∧
    jsonParse (extractedStr "\x7da\x7b") = none ∧
    POST w10o (some (.obj [])) none = (successResp fallbackPortfolio, e1Effects) :=
  ⟨rfl, rfl, by rfl, by rfl, rfl,
    ((C10_swapped_braces w10o (.obj []) none "\x7da\x7b" 2 0 JsonVal.null rfl rfl rfl
      (by rfl) (by rfl) (by omega)).2.1 rfl).1⟩

/-- C4 counterexample: for a successful, well-formed generation response
whose object lacks the css and js keys, the triple returned to the caller
is the parsed object itself — the missing keys stay absent (undefined), not
defaulted to the empty string; defaulting happens only in the persisted
columns. -/
theorem C4_counterexample :
    extractParse "\x7b\"html\":\"a\"\x7d" = some c4gc ∧
    (POST c4o (some (.obj [])) none).1 = successResp c4gc ∧
    jsGet c4gc "css" = none ∧
    jsGet c4gc "js" = none ∧
    c4gc ≠ claimDefaultedTriple c4gc := by
  refine ⟨rfl, rfl, rfl, rfl, fun h => ?_⟩
  rw [show claimDefaultedTriple c4gc =
    .obj [("html", .str "a"), ("css", .str ""), ("js", .str "")] from rfl] at h
  simp [c4gc] at h

/-- C4 amended: the triple returned to the caller is exactly the parsed
object (so all three fields are present as strings precisely when the
parsed result has them); the empty-string defaulting applies to the
persisted record's content columns, which indeed are never null. -/
theorem C4_amended (o : Oracle) (sd uid gc : JsonVal) (text : String)
    (newId : Nat) (sb : String)
    (hsd : jsTruthy sd = true) (huid : jsTruthy uid = true)
    (hkey : keyMissing o.apiKey = false)
    (hgen : o.genResult = .ok text) (hext : extractParse text = some gc)
    (hdata : o.dataInsert = .ok newId) (hins : o.portfolioInsert = .ok ())
    (hslug : slugBase sd = .ok sb) (hgc : gc ≠ JsonVal.null) :
    (POST o (some sd) (some uid)).1 = successResp gc ∧
    ∀ prow ∈ (POST o (some sd) (some uid)).2.portfolioRows,
      prow.html_content = jsCoalesce (jsGet gc "html") (.str "") ∧
      prow.css_content = jsCoalesce (jsGet gc "css") (.str "") ∧
      prow.js_content = jsCoalesce (jsGet gc "js") (.str "") ∧
      prow.html_content ≠ JsonVal.null ∧
      prow.css_content ≠ JsonVal.null ∧
      prow.js_content ≠ JsonVal.null := by
  obtain ⟨prow0, hb⟩ := buildPortfolioRow_isOk uid newId sd gc o.now sb hslug hgc
  have ht := tryBody_persist o sd uid gc text hsd huid hkey hgen hext
  have hpost := POST_of_ok o (some sd) (some uid) _ _
    (ht.trans (persistPhase_allOk o sd uid gc newId prow0 hdata hb hins))
  constructor
  · rw [hpost]
  · intro prow hmem
    rw [hpost] at hmem
    simp only [List.mem_singleton] at hmem
    have hf := buildPortfolioRow_fields uid newId sd gc o.now prow0 hb
    rw [hmem]
    have hnn : (JsonVal.str "" : JsonVal) ≠ JsonVal.null := fun he => JsonVal.noConfusion he
    refine ⟨hf.1, hf.2.1, hf.2.2.1, ?_, ?_, ?_⟩
    · rw [hf.1]; exact jsCoalesce_ne_null _ _ hnn
    · rw [hf.2.1]; exact jsCoalesce_ne_null _ _ hnn
    · rw [hf.2.2.1]; exact jsCoalesce_ne_null _ _ hnn

/-- Witness for the amended C4: the response carries the parsed object
unchanged while the persisted css column is the empty string, never null. -/
theorem C4_amended_witness :
    (POST w4o (some (JsonVal.obj [])) (some (JsonVal.str "u"))).1 = successResp c4gc ∧
    rowC4.css_content = JsonVal.str "" ∧
    rowC4.css_content ≠ JsonVal.null := by
  have hmem : rowC4 ∈ c4rows := by
    rw [show c4rows = [rowC4] from rfl]
    exact List.Mem.head _
  have h := C4_amended w4o (JsonVal.obj []) (JsonVal.str "u") c4gc
    "\x7b\"html\":\"a\"\x7d" 3 "portfolio" rfl rfl rfl rfl rfl rfl rfl rfl
    (fun he => JsonVal.noConfusion he)
  refine ⟨h.1, ?_, (h.2 rowC4 hmem).2.2.2.2.1⟩
  rw [(h.2 rowC4 hmem).2.1]
  rfl

/-- C8 counterexample: for the name John Doe the persisted slug is
john-doe-0 — the code also replaces whitespace runs with hyphens — whereas
the claim's "lowercased name plus a timestamp" would be john doe-0; the
lowercased name is not even a prefix of the actual slug. -/
theorem C8_counterexample :
    c8crows.map PortfolioRow.slug = ["john-doe-0"] ∧
    specSlugOfName "John Doe" 0 = "john doe-0" ∧
    ("john-doe-0" : String) ≠ specSlugOfName "John Doe" 0 ∧
    List.isPrefixOf (lowerStr "John Doe").data "john-doe-0".data = false :=
  ⟨rfl, rfl, by decide, by decide⟩

/-- C8 amended: the persisted row's title is the personal-info name
(defaulting to "Untitled Portfolio" when no name exists); its slug is the
lowercased name with whitespace runs replaced by hyphens, plus a hyphen and
the timestamp (falling back to "portfolio" plus the timestamp when no name
exists); its publish flag is initially false and its view counter initially
zero. -/
theorem C8_amended (o : Oracle) (sd uid gc : JsonVal) (text : String)
    (hsd : jsTruthy sd = true) (huid : jsTruthy uid = true)
    (hkey : keyMissing o.apiKey = false)
    (hgen : o.genResult = .ok text) (hext : extractParse text = some gc) :
    ∀ prow ∈ (POST o (some sd) (some uid)).2.portfolioRows,
      prow.is_published = false ∧ prow.view_count = 0 ∧
      (∀ nm, chain2 sd "personal_info" "name" = some (.str nm) →
        prow.title = .str nm ∧
        prow.slug = replaceWsRuns (lowerStr nm) ++ "-" ++ Nat.repr o.now) ∧
      (chain2 sd "personal_info" "name" = none →
        prow.title = .str "Untitled Portfolio" ∧
        prow.slug = "portfolio" ++ "-" ++ Nat.repr o.now) := by
  intro prow hmem
  have ht := tryBody_persist o sd uid gc text hsd huid hkey hgen hext
  rw [POST_snd, ht] at hmem
  obtain ⟨newId, hd, hb⟩ := persistPhase_rows o sd uid gc prow hmem
  have hf := buildPortfolioRow_fields uid newId sd gc o.now prow hb
  refine ⟨hf.2.2.2.1, hf.2.2.2.2.1, fun nm hnm => ⟨?_, ?_⟩, fun hnone => ⟨?_, ?_⟩⟩
  · rw [hf.2.2.2.2.2.1, hnm]
    rfl
  · exact hf.2.2.2.2.2.2 (replaceWsRuns (lowerStr nm))
      (by unfold slugBase; rw [hnm])
  · rw [hf.2.2.2.2.2.1, hnone]
    rfl
  · exact hf.2.2.2.2.2.2 "portfolio" (by unfold slugBase; rw [hnone])

/-- Witness for the amended C8: concrete derived fields for name Alice at
timestamp 7. -/
theorem C8_amended_witness :
    rowC8.is_published = false ∧ rowC8.view_count = 0 ∧
    rowC8.title = JsonVal.str "Alice" ∧ rowC8.slug = "alice-7" := by
  have hmem : rowC8 ∈ c8rows := by
    rw [show c8rows = [rowC8] from rfl]
    exact List.Mem.head _
  have h := C8_amended c8o c8sd (JsonVal.str "u1") (JsonVal.obj [("html", JsonVal.str "h")])
    "\x7b\"html\":\"h\"\x7d" rfl rfl rfl rfl rfl rowC8 hmem
  refine ⟨h.1, h.2.1, (h.2.2.1 "Alice" rfl).1, ?_⟩
  rw [(h.2.2.1 "Alice" rfl).2]
  rfl

/-- A character absent from a list has no first-occurrence index. -/
lemma idxFrom_not_mem (c : Char) (l : List Char) (h : c ∉ l) :
    idxFrom c l = none := by
  induction l with
  | nil => rfl
  | cons x xs ih =>
    have hx : ¬(x = c) := fun he => h (by rw [← he]; exact List.mem_cons_self x xs)
    simp only [idxFrom, if_neg hx]
    rw [ih (fun hm => h (List.mem_cons_of_mem x hm))]
    rfl

/-- First occurrence after a prefix that does not contain the character. -/
lemma idxFrom_append (c : Char) (pre t : List Char) (h : c ∉ pre) :
    idxFrom c (pre ++ c :: t) = some pre.length := by
  induction pre with
  | nil => simp [idxFrom]
  | cons x xs ih =>
    have hx : ¬(x = c) := fun he => h (by rw [← he]; exact List.mem_cons_self x xs)
    simp only [List.cons_append, idxFrom, if_neg hx, List.append_eq]
    rw [ih (fun hm => h (List.mem_cons_of_mem x hm))]
    rfl

/-- A character absent from a list has no last-occurrence index. -/
lemma lastIdxFrom_not_mem (c : Char) (l : List Char) (h : c ∉ l) :
    lastIdxFrom c l = none := by
  induction l with
  | nil => rfl
  | cons x xs ih =>
    have hx : ¬(x = c) := fun he => h (by rw [← he]; exact List.mem_cons_self x xs)
    simp only [lastIdxFrom]
    rw [ih (fun hm => h (List.mem_cons_of_mem x hm))]
    show (if x = c then some 0 else none : Option Nat) = none
    rw [if_neg hx]

/-- Last occurrence before a suffix that does not contain the character. -/
lemma lastIdxFrom_append (c : Char) (a post : List Char) (h : c ∉ post) :
    lastIdxFrom c (a ++ c :: post) = some a.length := by
  induction a with
  | nil =>
    simp [lastIdxFrom, lastIdxFrom_not_mem c post h]
  | cons x xs ih =>
    simp only [List.cons_append, lastIdxFrom, List.append_eq]
    rw [ih]
    rfl

/-- `substring` with in-range ordered natural indices is drop-then-take. -/
lemma jsSubstring_of_le (l : List Char) (a b : Nat) (hab : a ≤ b) (hb : b ≤ l.length) :
    jsSubstring l (a : Int) (b : Int) = (l.drop a).take (b - a) := by
  simp only [jsSubstring, Int.toNat_natCast]
  rw [min_eq_left (le_trans hab hb), min_eq_left hb,
    min_eq_left hab, max_eq_right hab]

/-- C5: tolerant extraction — for a response made of prose before, a
braced payload, and prose after (the prose containing no interfering
brace), the route locates the first left brace and last right brace,
extracts exactly the embedded braced text, and parses it; so whenever the
embedded text is a valid JSON object, extraction yields exactly that
object. -/
theorem C5_tolerant_extraction (pre core post : List Char)
    (hpre : lbrace ∉ pre) (hpost : rbrace ∉ post) :
    jsIndexOf (pre ++ lbrace :: core ++ rbrace :: post) lbrace = (pre.length : Int) ∧
    jsLastIndexOf (pre ++ lbrace :: core ++ rbrace :: post) rbrace =
      ((pre.length + core.length + 1 : Nat) : Int) ∧
    extractedStr (String.mk (pre ++ lbrace :: core ++ rbrace :: post)) =
      String.mk (lbrace :: core ++ [rbrace]) ∧
    extractParse (String.mk (pre ++ lbrace :: core ++ rbrace :: post)) =
      jsonParse (String.mk (lbrace :: core ++ [rbrace])) := by
  have h1 : jsIndexOf (pre ++ lbrace :: core ++ rbrace :: post) lbrace =
      (pre.length : Int) := by
    unfold jsIndexOf
    simp only [List.append_assoc, List.cons_append]
    rw [idxFrom_append lbrace pre (core ++ rbrace :: post) hpre]
  have h2 : jsLastIndexOf (pre ++ lbrace :: core ++ rbrace :: post) rbrace =
      ((pre.length + core.length + 1 : Nat) : Int) := by
    unfold jsLastIndexOf
    rw [lastIdxFrom_append rbrace (pre ++ lbrace :: core) post hpost]
    simp only [List.length_append, List.length_cons]
    omega
  have hdrop : List.drop pre.length (pre ++ lbrace :: core ++ rbrace :: post) =
      lbrace :: core ++ rbrace :: post := by
    rw [List.append_assoc]
    exact List.drop_left pre _
  have htake : List.take (core.length + 2) (lbrace :: core ++ rbrace :: post) =
      lbrace :: core ++ [rbrace] := by
    rw [List.take_append_eq_append_take,
      List.take_of_length_le (by simp only [List.length_cons]; omega),
      show core.length + 2 - (lbrace :: core).length = 1 from by
        simp only [List.length_cons]; omega]
    rfl
  have h3 : extractedStr (String.mk (pre ++ lbrace :: core ++ rbrace :: post)) =
      String.mk (lbrace :: core ++ [rbrace]) := by
    unfold extractedStr
    rw [show (String.mk (pre ++ lbrace :: core ++ rbrace :: post)).data =
      pre ++ lbrace :: core ++ rbrace :: post from rfl]
    rw [h1, h2]
    rw [show ((pre.length + core.length + 1 : Nat) : Int) + 1 =
      ((pre.length + core.length + 2 : Nat) : Int) from by push_cast; ring]
    rw [jsSubstring_of_le (pre ++ lbrace :: core ++ rbrace :: post)
      pre.length (pre.length + core.length + 2) (by omega)
      (by simp only [List.length_append, List.length_cons]; omega)]
    rw [show pre.length + core.length + 2 - pre.length = core.length + 2 from by omega]
    rw [hdrop, htake]
  have h4 : extractParse (String.mk (pre ++ lbrace :: core ++ rbrace :: post)) =
      jsonParse (String.mk (lbrace :: core ++ [rbrace])) := by
    unfold extractParse
    rw [show (String.mk (pre ++ lbrace :: core ++ rbrace :: post)).data =
      pre ++ lbrace :: core ++ rbrace :: post from rfl]
    rw [h1, h2]
    rw [if_neg (by omega : ¬((pre.length : Int) = -1 ∨
      ((pre.length + core.length + 1 : Nat) : Int) = -1))]
    rw [h3]
  exact ⟨h1, h2, h3, h4⟩

/-- Witness for C5 at the spec's example: prose around a valid JSON object;
extraction yields exactly the embedded object. -/
theorem C5_tolerant_extraction_witness :
    lbrace ∉ "Sure! ".data ∧ rbrace ∉ " Hope that helps!".data ∧
    extractParse (String.mk ("Sure! ".data ++ lbrace ::
        "\"html\":\"<p>x</p>\",\"css\":\"\",\"js\":\"\"".data ++
        rbrace :: " Hope that helps!".data)) =
      jsonParse (String.mk (lbrace ::
        "\"html\":\"<p>x</p>\",\"css\":\"\",\"js\":\"\"".data ++ [rbrace])) ∧
    jsonParse (String.mk (lbrace ::
        "\"html\":\"<p>x</p>\",\"css\":\"\",\"js\":\"\"".data ++ [rbrace])) =
      some (.obj [("html", .str "<p>x</p>"), ("css", .str ""), ("js", .str "")]) :=
  ⟨by decide, by decide,
    (C5_tolerant_extraction "Sure! ".data
      "\"html\":\"<p>x</p>\",\"css\":\"\",\"js\":\"\"".data
      " Hope that helps!".data (by decide) (by decide)).2.2.2,
    by rfl⟩

/-- C9: every row of the dashboard's reads has missing optional fields
replaced by the documented defaults before rendering — a resume row's
missing processing status becomes completed, a portfolio row's missing
metadata becomes the empty descriptor. -/
theorem C9_dashboard_defaults (uid : JsonVal) (rrows : List RawResume)
    (prows : List RawPortfolio) (r : RawResume) (p : RawPortfolio)
    (hr : r ∈ rrows) (hp : p ∈ prows)
    (hrs : r.processing_status = none) (hpm : p.metadata = none) :
    mapResume uid r ∈ mapResumes uid rrows ∧
    (mapResume uid r).processing_status = .str "completed" ∧
    mapPortfolio uid p ∈ mapPortfolios uid prows ∧
    (mapPortfolio uid p).metadata = emptyMetadataDescriptor ∧
    emptyMetadataDescriptor =
      .obj [("title", .str ""), ("description", .str ""), ("keywords", .arr [])] := by
  refine ⟨List.mem_map_of_mem _ hr, ?_, List.mem_map_of_mem _ hp, ?_, rfl⟩
  · rw [show (mapResume uid r).processing_status =
      jsCoalesce r.processing_status (.str "completed") from rfl, hrs]
    rfl
  · rw [show (mapPortfolio uid p).metadata =
      jsCoalesce p.metadata emptyMetadataDescriptor from rfl, hpm]
    rfl

/-- Witness for C9 at concrete single-row reads. -/
theorem C9_dashboard_defaults_witness :
    (mapResume (JsonVal.str "u") w9r).processing_status = JsonVal.str "completed" ∧
    (mapPortfolio (JsonVal.str "u") w9p).metadata = emptyMetadataDescriptor :=
  ⟨(C9_dashboard_defaults (JsonVal.str "u") [w9r] [w9p] w9r w9p
      (List.Mem.head _) (List.Mem.head _) rfl rfl).2.1,
    (C9_dashboard_defaults (JsonVal.str "u") [w9r] [w9p] w9r w9p
      (List.Mem.head _) (List.Mem.head _) rfl rfl).2.2.2.1⟩
